import Mathlib

/-!
Verification of the storage layer of an offline note-taking app
(the StorageManager class in src/js/storage.js).

Shallow embedding conventions:
* Timestamps are natural numbers. The code stores ISO-8601 strings
  produced from the clock; the string encoding is order-isomorphic to
  the underlying instant, so operations take an explicit clock value
  (now : Nat) where the code calls Date.now or new Date().
* A JavaScript object holding a subset of note fields is a structure
  of Option fields: none models an absent property, some v a present
  property with value v (a present property whose value is the empty
  string is some emptyString, which is falsy in JS but present for
  object spread).
* Rejected promises / thrown errors are Except values.
* The localStorage blob under the key offline_notes is modelled by
  StoredBlob: absent (getItem returns null), malformed (JSON.parse
  throws), or wellFormed with the decoded list of notes.
-/

namespace OfflineNotes

/-- A fully persisted note record (all seven fields of the objects
built by createNote in src/js/storage.js). -/
structure Note where
  id : String
  title : String
  content : String
  tags : List String
  folder : String
  createdAt : Nat
  updatedAt : Nat
deriving DecidableEq, Repr

/-- A partial note object as passed by callers to createNote or
updateNote: each field is optionally present. -/
structure NoteInput where
  id : Option String := none
  title : Option String := none
  content : Option String := none
  tags : Option (List String) := none
  folder : Option String := none
  createdAt : Option Nat := none
  updatedAt : Option Nat := none
deriving DecidableEq, Repr

/-- Error kinds of the storage layer: NotFound is the bare throw in
updateNote, invalidFormat the throw in importData, parseError a
JSON.parse exception, storageFailure the generic wrapped rejection
produced by the catch blocks of the localStorage helpers. -/
inductive StorageError where
  | notFound
  | invalidFormat
  | parseError
  | storageFailure
deriving DecidableEq, Repr

/-- JavaScript x || d for a string-valued property: the default is
used when the property is absent (undefined) or its value is the
empty string (both falsy). -/
def jsOrString (x : Option String) (d : String) : String :=
  match x with
  | none => d
  | some s => if s = ("" : String) then d else s

/-- The object literal built first by createNote, before the final
object spread of noteData: generated id, defaulted fields, both
timestamps from the clock.  Arrays are always truthy in JS, so
noteData.tags || [] keeps any present tags value. -/
def defaultedNote (noteData : NoteInput) (freshId : String) (now : Nat) : Note :=
  { id := freshId
    title := jsOrString noteData.title ("Untitled Note")
    content := jsOrString noteData.content ("")
    tags := noteData.tags.getD []
    folder := jsOrString noteData.folder ("default")
    createdAt := now
    updatedAt := now }

/-- JavaScript object spread { ...base, ...u }: every property present
in u overrides the one in base. -/
def spreadInput (base : Note) (u : NoteInput) : Note :=
  { id := u.id.getD base.id
    title := u.title.getD base.title
    content := u.content.getD base.content
    tags := u.tags.getD base.tags
    folder := u.folder.getD base.folder
    createdAt := u.createdAt.getD base.createdAt
    updatedAt := u.updatedAt.getD base.updatedAt }

/-- createNote (storage.js lines 122-139): build the defaults object,
then spread noteData over it (the spread is written last in the object
literal, so caller-supplied fields win). -/
def createNote (noteData : NoteInput) (freshId : String) (now : Nat) : Note :=
  spreadInput (defaultedNote noteData freshId now) noteData

/-- The notes array held by the fallback backend (content of a
well-formed offline_notes blob). -/
abbrev Store := List Note

/-- getAllNotes on a healthy store returns the whole collection. -/
def getAllNotes (notes : Store) : Store := notes

/-- notes.find of getNoteLocalStorage: first note with the given id. -/
def getNoteFromList (notes : Store) (id : String) : Option Note :=
  notes.find? (fun n => n.id == id)

/-- createNoteLocalStorage (lines 163-172): push the new note and
rewrite the blob; resolves with the note. -/
def createNoteLocalStorage (notes : Store) (note : Note) : Store × Note :=
  (notes ++ [note], note)

/-- notes.findIndex followed by notes[index] = note in
updateNoteLocalStorage: replace the first note whose id matches the
incoming record, none when findIndex yields -1. -/
def replaceById (notes : Store) (note : Note) : Option Store :=
  match notes with
  | [] => none
  | n :: rest =>
    if n.id == note.id then some (note :: rest)
    else (replaceById rest note).map (fun r => n :: r)

/-- updateNoteLocalStorage (lines 303-316): replace in place; a missing
index throws inside the try block and is rewrapped by the catch into a
generic rejection. -/
def updateNoteLocalStorage (notes : Store) (note : Note) :
    Except StorageError (Store × Note) :=
  match replaceById notes note with
  | none => Except.error StorageError.storageFailure
  | some updated => Except.ok (updated, note)

/-- The merged record built by updateNote (lines 268-272):
{ ...existingNote, ...updates, updatedAt: now } - the stamp is the
last property, so it wins over any updatedAt inside updates. -/
def mergeUpdate (existingNote : Note) (updates : NoteInput) (now : Nat) : Note :=
  { spreadInput existingNote updates with updatedAt := now }

/-- updateNote (lines 262-279) on the fallback backend: read the
record, throw NotFound when absent, merge and stamp, then write. -/
def updateNote (notes : Store) (id : String) (updates : NoteInput) (now : Nat) :
    Except StorageError (Store × Note) :=
  match getNoteFromList notes id with
  | none => Except.error StorageError.notFound
  | some existingNote =>
    updateNoteLocalStorage notes (mergeUpdate existingNote updates now)

/-- deleteNoteLocalStorage (lines 351-360): filter the id out. -/
def deleteNoteFromList (notes : Store) (id : String) : Store :=
  notes.filter (fun n => n.id != id)

/-- List-of-chars contiguous-substring test implementing the
JavaScript String.prototype.includes used by searchNotes. -/
def listIncludes (needle : List Char) : List Char → Bool
  | [] => needle.isEmpty
  | c :: rest => List.isPrefixOf needle (c :: rest) || listIncludes needle rest

/-- hay.includes(needle) on strings. -/
def strIncludes (hay needle : String) : Bool :=
  listIncludes needle.data hay.data

/-- String.prototype.toLowerCase, character by character. -/
def strToLower (s : String) : String :=
  String.mk (s.data.map Char.toLower)

/-- The filter predicate of searchNotes (lines 369-373): the lowered
search term occurs in the lowered title, the lowered content, or some
lowered tag. -/
def matchesQuery (searchTerm : String) (note : Note) : Bool :=
  strIncludes (strToLower note.title) searchTerm ||
  strIncludes (strToLower note.content) searchTerm ||
  note.tags.any (fun tag => strIncludes (strToLower tag) searchTerm)

/-- searchNotes (lines 365-374): lower the query, then filter the full
collection. -/
def searchNotes (notes : Store) (query : String) : Store :=
  notes.filter (matchesQuery (strToLower query))

/-- The fallback branch of getNotesByFolder (lines 383-384): filter
read-all by folder. -/
def getNotesByFolder (notes : Store) (folder : String) : Store :=
  (getAllNotes notes).filter (fun note => note.folder == folder)

/-- One bucket list per folder key: the multi-entry folder index kept
by the IndexedDB backend (store.createIndex on folder, line 96).
Records enter the bucket of their folder key in insertion order. -/
def folderIndexAdd (note : Note) :
    List (String × List Note) → List (String × List Note)
  | [] => [(note.folder, [note])]
  | (k, bucket) :: rest =>
    if k == note.folder then (k, bucket ++ [note]) :: rest
    else (k, bucket) :: folderIndexAdd note rest

/-- The folder index built from the records of the object store. -/
def buildFolderIndex (notes : Store) : List (String × List Note) :=
  notes.foldl (fun idx note => folderIndexAdd note idx) []

/-- index.getAll(folder) (line 396): the bucket under the folder key,
empty when the key has no entries. -/
def indexLookup : List (String × List Note) → String → List Note
  | [], _ => []
  | (k, bucket) :: rest, folder =>
    if k == folder then bucket else indexLookup rest folder

/-- getNotesByFolderIndexedDB (lines 391-406): an indexed getAll on the
folder index of the store's records. -/
def getNotesByFolderIndexedDB (notes : Store) (folder : String) : List Note :=
  indexLookup (buildFolderIndex notes) folder

/-- clearAllDataLocalStorage (lines 472-479): reset the blob to an
empty array. -/
def clearAllData (_notes : Store) : Store := []

/-- The bundle built by exportData (lines 411-418). -/
structure ExportBundle where
  version : Nat
  exportDate : Nat
  notes : List Note
deriving DecidableEq, Repr

/-- exportData: schema version 1, generation timestamp, snapshot of
read-all. -/
def exportData (notes : Store) (now : Nat) : ExportBundle :=
  { version := 1, exportDate := now, notes := getAllNotes notes }

/-- The value found at the notes property of an import payload: either
a JavaScript array of note objects, or any non-array value (with its
JS truthiness recorded). -/
inductive NotesField where
  | arr (inputs : List NoteInput)
  | nonArray (truthy : Bool)
deriving DecidableEq, Repr

/-- An arbitrary payload handed to importData: the notes property may
be absent. -/
structure ImportPayload where
  notes : Option NotesField := none
deriving DecidableEq, Repr

/-- The validation gate of importData (line 424):
!data.notes || !Array.isArray(data.notes).  An absent property is
undefined (falsy), a non-array fails Array.isArray, and an array is
always truthy, so exactly the arrays pass. -/
def validNotes : Option NotesField → Option (List NoteInput)
  | some (NotesField.arr inputs) => some inputs
  | _ => none

/-- The sequential createNote loop of importData (lines 432-434);
fresh ids are drawn from the generator genId at successive indices. -/
def importLoop (notes : Store) (inputs : List NoteInput)
    (genId : Nat → String) (k : Nat) (now : Nat) : Store :=
  match inputs with
  | [] => notes
  | input :: rest =>
    let created := createNoteLocalStorage notes (createNote input (genId k) now)
    importLoop created.1 rest genId (k + 1) now

/-- importData (lines 423-437): validate the shape, clear everything,
then create each bundle note in order; resolves with the count. -/
def importData (notes : Store) (data : ImportPayload)
    (genId : Nat → String) (now : Nat) : Except StorageError (Store × Nat) :=
  match validNotes data.notes with
  | none => Except.error StorageError.invalidFormat
  | some inputs =>
    Except.ok (importLoop (clearAllData notes) inputs genId 0 now, inputs.length)

/-- A note with every field present, as the members of an export
bundle's notes array are when fed back to createNote by importData. -/
def noteToInput (n : Note) : NoteInput :=
  { id := some n.id
    title := some n.title
    content := some n.content
    tags := some n.tags
    folder := some n.folder
    createdAt := some n.createdAt
    updatedAt := some n.updatedAt }

/-- The payload importData receives when handed an export bundle. -/
def bundleToPayload (b : ExportBundle) : ImportPayload :=
  { notes := some (NotesField.arr (b.notes.map noteToInput)) }

/-- The offline_notes blob as seen by getNotesFromLocalStorage. -/
inductive StoredBlob where
  | absent
  | malformed (raw : String)
  | wellFormed (notes : List Note)
deriving Repr

/-- getNotesFromLocalStorage (lines 484-487):
notesJson ? JSON.parse(notesJson) : [] - a null blob yields the empty
array, a malformed blob makes JSON.parse throw. -/
def getNotesFromLocalStorage : StoredBlob → Except StorageError (List Note)
  | StoredBlob.absent => Except.ok []
  | StoredBlob.malformed _ => Except.error StorageError.parseError
  | StoredBlob.wellFormed notes => Except.ok notes

/-- getAllNotesLocalStorage (lines 207-214): the catch block converts
any throw from the helper into a generic rejection. -/
def getAllNotesLocalStorage (blob : StoredBlob) : Except StorageError (List Note) :=
  match getNotesFromLocalStorage blob with
  | Except.ok notes => Except.ok notes
  | Except.error _ => Except.error StorageError.storageFailure

/-- getNoteLocalStorage (lines 249-257): helper plus find inside a try,
catch rewraps as a generic rejection. -/
def getNoteLocalStorage (blob : StoredBlob) (id : String) :
    Except StorageError (Option Note) :=
  match getNotesFromLocalStorage blob with
  | Except.ok notes => Except.ok (getNoteFromList notes id)
  | Except.error _ => Except.error StorageError.storageFailure

/-- searchNotes on the fallback backend: awaits getAllNotes, so a
rejection there propagates. -/
def searchNotesLocalStorage (blob : StoredBlob) (query : String) :
    Except StorageError (List Note) :=
  match getAllNotesLocalStorage blob with
  | Except.ok notes => Except.ok (searchNotes notes query)
  | Except.error e => Except.error e

/-- getNotesByFolder on the fallback backend: awaits getAllNotes, then
filters. -/
def getNotesByFolderLocalStorage (blob : StoredBlob) (folder : String) :
    Except StorageError (List Note) :=
  match getAllNotesLocalStorage blob with
  | Except.ok notes => Except.ok (getNotesByFolder notes folder)
  | Except.error e => Except.error e

/-- generateId (lines 492-494): the string
note_ + Date.now() + _ + random suffix, with the clock value rendered
in decimal and the suffix drawn from Math.random().toString(36) (nine
base-36 characters, never an underscore). -/
def generateId (now : Nat) (rand : String) : String :=
  ("note_" ++ Nat.repr now) ++ ("_" ++ rand)

/-- A concrete stored note used to instantiate the universally
quantified theorems below. -/
def sampleNote : Note :=
  { id := "a"
    title := "Alpha"
    content := "body"
    tags := ["work-tag"]
    folder := "work"
    createdAt := 1
    updatedAt := 1 }

/-- sampleNote after an update at time 5. -/
def sampleNoteUpdated : Note :=
  { sampleNote with title := "Beta", updatedAt := 5 }

/-- C1: evaluating every fallback read operation at a malformed blob
(the repository's own corrupted-data test stores the literal
string invalid json).  Each operation rejects with the wrapped
storage failure instead of resolving with an empty collection, which
contradicts the claim, the spec, and the repository's test
expectation that getAllNotes should return an empty array. -/
theorem malformedBlobReads_reject :
    getAllNotesLocalStorage (StoredBlob.malformed ("invalid json")) =
      Except.error StorageError.storageFailure ∧
    getNoteLocalStorage (StoredBlob.malformed ("invalid json")) ("a") =
      Except.error StorageError.storageFailure ∧
    searchNotesLocalStorage (StoredBlob.malformed ("invalid json")) ("q") =
      Except.error StorageError.storageFailure ∧
    getNotesByFolderLocalStorage (StoredBlob.malformed ("invalid json")) ("work") =
      Except.error StorageError.storageFailure :=
  ⟨rfl, rfl, rfl, rfl⟩

/-- C5: when no stored note has the requested id, updateNote rejects
with NotFound; it returns no successor store, so no record is created
as a side effect. -/
theorem updateNote_missing_notFound (notes : Store) (id : String)
    (updates : NoteInput) (now : Nat)
    (h : getNoteFromList notes id = none) :
    updateNote notes id updates now = Except.error StorageError.notFound := by
  unfold updateNote
  rw [h]

/-- Witness for C5 at the empty store and id missing. -/
theorem updateNote_missing_notFound_wit :
    updateNote [] ("missing") {} 0 = Except.error StorageError.notFound :=
  updateNote_missing_notFound [] ("missing") {} 0 rfl

/-- C6: a payload whose notes property is absent or not an array fails
the validation gate, and importData rejects with InvalidFormat without
producing any successor store: the clear and the per-note creation
loop are never reached. -/
theorem importData_invalidFormat (notes : Store) (data : ImportPayload)
    (genId : Nat → String) (now : Nat)
    (h : validNotes data.notes = none) :
    importData notes data genId now = Except.error StorageError.invalidFormat := by
  unfold importData
  rw [h]

/-- Witness for C6: a payload without a notes property. -/
theorem importData_invalidFormat_wit :
    importData [sampleNote] { notes := none } (fun _ => ("x")) 7 =
      Except.error StorageError.invalidFormat :=
  importData_invalidFormat [sampleNote] { notes := none } (fun _ => ("x")) 7 rfl

/-- C10: whenever updateNote succeeds, the record it stores and
returns carries the fresh clock value as updatedAt, regardless of the
contents of the updates object - in particular even when updates
itself carries an updatedAt property, because the stamp is the last
property of the merged object literal. -/
theorem updateNote_stamp_wins (notes : Store) (id : String)
    (updates : NoteInput) (now : Nat) (result : Store × Note)
    (h : updateNote notes id updates now = Except.ok result) :
    result.2.updatedAt = now := by
  unfold updateNote updateNoteLocalStorage at h
  split at h
  · cases h
  · split at h
    · cases h
    · cases h
      rfl

/-- Witness for C10: an update that tries to smuggle updatedAt 999 in
its payload still gets stamped with the clock value 5. -/
theorem updateNote_stamp_wins_wit :
    ({ sampleNote with updatedAt := 5 } : Note).updatedAt = 5 :=
  updateNote_stamp_wins [sampleNote] ("a") { updatedAt := some 999 } 5
    ([{ sampleNote with updatedAt := 5 }], { sampleNote with updatedAt := 5 })
    rfl

/-- C2, counterexample: a present-but-empty title is not replaced by
the default, because the object spread of noteData is written last in
createNote and restores the caller value over the defaulted one; the
same spread lets a caller-supplied createdAt break
createdAt == updatedAt.  Input: noteData with title present and empty
and createdAt 99, clock 5. -/
theorem createNote_emptyTitle_cex :
    (createNote { title := some (""), createdAt := some 99 } ("fresh") 5).title ≠
      ("Untitled Note" : String) ∧
    (createNote { title := some (""), createdAt := some 99 } ("fresh") 5).createdAt ≠
      (createNote { title := some (""), createdAt := some 99 } ("fresh") 5).updatedAt := by
  decide

/-- C2 as amended: for a noteData that does not itself carry a
createdAt or updatedAt property, createNote returns a note where
every absent field carries its documented default (content empty,
tags empty, folder default, id freshly generated), title defaults to
Untitled Note only when absent - a present-but-empty title survives -
and createdAt and updatedAt both equal the creation clock, hence
coincide. -/
theorem createNote_defaults_amended (noteData : NoteInput) (freshId : String)
    (now : Nat)
    (hc : noteData.createdAt = none) (hu : noteData.updatedAt = none) :
    (noteData.title = none →
      (createNote noteData freshId now).title = ("Untitled Note" : String)) ∧
    (∀ t, noteData.title = some t → (createNote noteData freshId now).title = t) ∧
    (noteData.content = none → (createNote noteData freshId now).content = ("" : String)) ∧
    (noteData.tags = none → (createNote noteData freshId now).tags = []) ∧
    (noteData.folder = none → (createNote noteData freshId now).folder = ("default" : String)) ∧
    (noteData.id = none → (createNote noteData freshId now).id = freshId) ∧
    (createNote noteData freshId now).createdAt = now ∧
    (createNote noteData freshId now).updatedAt = now := by
  refine ⟨?_, ?_, ?_, ?_, ?_, ?_, ?_, ?_⟩
  · intro ht
    simp [createNote, spreadInput, defaultedNote, jsOrString, ht]
  · intro t ht
    simp [createNote, spreadInput, defaultedNote, ht]
  · intro hco
    simp [createNote, spreadInput, defaultedNote, jsOrString, hco]
  · intro hta
    simp [createNote, spreadInput, defaultedNote, hta]
  · intro hf
    simp [createNote, spreadInput, defaultedNote, jsOrString, hf]
  · intro hi
    simp [createNote, spreadInput, defaultedNote, hi]
  · simp [createNote, spreadInput, defaultedNote, hc]
  · simp [createNote, spreadInput, defaultedNote, hu]

/-- Witness for C2 as amended, at the empty noteData (the repository
test scenario createNote of an empty object) with fresh id f and
clock 3. -/
theorem createNote_defaults_amended_wit :
    ((({} : NoteInput).title = none →
      (createNote {} ("f") 3).title = ("Untitled Note" : String)) ∧
    (∀ t, ({} : NoteInput).title = some t → (createNote {} ("f") 3).title = t) ∧
    (({} : NoteInput).content = none → (createNote {} ("f") 3).content = ("" : String)) ∧
    (({} : NoteInput).tags = none → (createNote {} ("f") 3).tags = []) ∧
    (({} : NoteInput).folder = none → (createNote {} ("f") 3).folder = ("default" : String)) ∧
    (({} : NoteInput).id = none → (createNote {} ("f") 3).id = ("f" : String)) ∧
    (createNote {} ("f") 3).createdAt = 3 ∧
    (createNote {} ("f") 3).updatedAt = 3) :=
  createNote_defaults_amended {} ("f") 3 rfl rfl

/-- Feeding a note with every field present back to createNote (as
importData does with the members of an export bundle) reproduces the
note exactly: the final object spread restores every field, including
id and both timestamps. -/
theorem createNote_noteToInput (n : Note) (freshId : String) (now : Nat) :
    createNote (noteToInput n) freshId now = n :=
  rfl

/-- The sequential import loop over fully populated note objects
appends exactly the original notes to its accumulator. -/
theorem importLoop_noteToInput (l : List Note) (acc : Store)
    (genId : Nat → String) (k now : Nat) :
    importLoop acc (l.map noteToInput) genId k now = acc ++ l := by
  induction l generalizing acc k with
  | nil => simp [importLoop]
  | cons n rest ih =>
    simp only [List.map_cons, importLoop, createNoteLocalStorage,
      createNote_noteToInput]
    rw [ih]
    simp

/-- C3: the round-trip law.  Exporting any store, clearing all data,
then importing the bundle succeeds and reproduces exactly the original
notes (same ids, same field values, even in the same order), reporting
the original count. -/
theorem exportImport_roundTrip (notes : Store) (now now2 : Nat)
    (genId : Nat → String) :
    importData (clearAllData notes) (bundleToPayload (exportData notes now)) genId now2 =
      Except.ok (notes, notes.length) := by
  simp only [importData, bundleToPayload, exportData, validNotes, clearAllData,
    getAllNotes, importLoop_noteToInput, List.nil_append, List.length_map]

/-- C7: membership characterization of searchNotes.  A note is in the
result exactly when it is in the full collection and the lowercased
query occurs as a substring of its lowercased title, of its lowercased
content, or of the lowercasing of at least one of its tags.  The
operation is a total filter of getAllNotes, so a query matching
nothing yields the empty list and no error is ever produced. -/
theorem searchNotes_characterization (notes : Store) (query : String) (note : Note) :
    note ∈ searchNotes notes query ↔
      note ∈ getAllNotes notes ∧
        (strIncludes (strToLower note.title) (strToLower query) = true ∨
         strIncludes (strToLower note.content) (strToLower query) = true ∨
         ∃ tag, tag ∈ note.tags ∧
           strIncludes (strToLower tag) (strToLower query) = true) := by
  simp only [searchNotes, getAllNotes, matchesQuery, List.mem_filter,
    List.any_eq_true, Bool.or_eq_true, or_assoc]

/-- Adding one record to the folder index extends exactly the bucket
of its folder key, at the end, and leaves every other bucket alone. -/
theorem indexLookup_folderIndexAdd (idx : List (String × List Note))
    (note : Note) (folder : String) :
    indexLookup (folderIndexAdd note idx) folder =
      indexLookup idx folder ++ (if note.folder == folder then [note] else []) := by
  induction idx with
  | nil =>
    by_cases h : note.folder = folder <;>
      simp [folderIndexAdd, indexLookup, h]
  | cons kv rest ih =>
    obtain ⟨k, bucket⟩ := kv
    by_cases hk : k = note.folder
    · by_cases hf : k = folder
      · have hnf : note.folder = folder := hk.symm.trans hf
        simp [folderIndexAdd, indexLookup, hk, hf, hnf]
      · have hnf : ¬ note.folder = folder := fun e => hf (hk.trans e)
        simp [folderIndexAdd, indexLookup, hk, hf, hnf]
    · by_cases hf : k = folder
      · have hnf : ¬ note.folder = folder := fun e => hk (hf.trans e.symm)
        have hnf2 : ¬ folder = note.folder := fun e => hnf e.symm
        simp [folderIndexAdd, indexLookup, hk, hf, hnf, hnf2]
      · simp [folderIndexAdd, indexLookup, hk, hf, ih]

/-- Looking up a folder in the index built by inserting a list of
records into an arbitrary starting index returns the starting bucket
followed by the records of that folder in insertion order. -/
theorem indexLookup_foldl (notes : List Note)
    (idx : List (String × List Note)) (folder : String) :
    indexLookup (notes.foldl (fun i nt => folderIndexAdd nt i) idx) folder =
      indexLookup idx folder ++ notes.filter (fun nt => nt.folder == folder) := by
  induction notes generalizing idx with
  | nil => simp
  | cons n rest ih =>
    simp only [List.foldl_cons]
    rw [ih, indexLookup_folderIndexAdd]
    by_cases h : n.folder = folder <;>
      simp [List.filter_cons, h]

/-- C8: on both backends, getNotesByFolder returns exactly the subset
of getAllNotes whose folder equals the requested label - the indexed
getAll on the folder index of the primary backend and the read-all
filter of the fallback backend agree for every folder, including
folders with zero notes (empty bucket, empty filter). -/
theorem getNotesByFolder_backends_agree (notes : Store) (folder : String) :
    getNotesByFolderIndexedDB notes folder =
      (getAllNotes notes).filter (fun note => note.folder == folder) ∧
    getNotesByFolder notes folder =
      (getAllNotes notes).filter (fun note => note.folder == folder) := by
  constructor
  · unfold getNotesByFolderIndexedDB buildFolderIndex
    rw [indexLookup_foldl]
    simp [indexLookup, getAllNotes]
  · rfl

/-- C4, counterexample: the object spread of updates precedes only the
updatedAt stamp, so an updates object carrying createdAt overwrites
the stored creation time.  Updating sampleNote (createdAt 1) with
createdAt 99 at clock 5 succeeds, changes createdAt, and leaves
updatedAt (5) below createdAt (99), refuting both the
createdAt-unchanged and the updatedAt-greater-than-createdAt parts of
the claim as stated for arbitrary updates. -/
theorem updateNote_frame_cex :
    updateNote [sampleNote] ("a") { createdAt := some 99 } 5 =
      Except.ok ([{ sampleNote with createdAt := 99, updatedAt := 5 }],
        { sampleNote with createdAt := 99, updatedAt := 5 }) ∧
    ({ sampleNote with createdAt := 99, updatedAt := 5 } : Note).createdAt ≠
      sampleNote.createdAt ∧
    ¬ ({ sampleNote with createdAt := 99, updatedAt := 5 } : Note).createdAt <
        ({ sampleNote with createdAt := 99, updatedAt := 5 } : Note).updatedAt :=
  ⟨rfl, by decide, by decide⟩

/-- The note returned by the find of getNote carries the requested
id. -/
theorem getNoteFromList_id (notes : Store) (id : String) (n : Note)
    (h : getNoteFromList notes id = some n) : n.id = id := by
  have hp := List.find?_some h
  simpa using hp

/-- replaceById on a store whose find succeeds for the incoming
record's id replaces the first matching record, and the subsequent
find returns the new record. -/
theorem replaceById_find (notes : Store) (id : String) (existing note : Note)
    (hfind : getNoteFromList notes id = some existing) (hnid : note.id = id) :
    ∃ s', replaceById notes note = some s' ∧
      getNoteFromList s' id = some note := by
  induction notes with
  | nil => cases hfind
  | cons n rest ih =>
    by_cases h : n.id = id
    · have hmatch : n.id = note.id := h.trans hnid.symm
      refine ⟨note :: rest, ?_, ?_⟩
      · simp [replaceById, hmatch]
      · simp [getNoteFromList, List.find?, hnid]
    · have hb : (n.id == id) = false := by
        simp [h]
      have hfind' : getNoteFromList rest id = some existing := by
        simpa [getNoteFromList, List.find?, hb] using hfind
      obtain ⟨s', hrep, hf⟩ := ih hfind'
      have hmatch : ¬ n.id = note.id := fun e => h (e.trans hnid)
      refine ⟨n :: s', ?_, ?_⟩
      · simp [replaceById, hmatch, hrep]
      · simpa [getNoteFromList, List.find?, hb] using hf

/-- C4 as amended: for an updates object that carries neither id nor
createdAt, and an update clock strictly after the stored creation
time, updateNote succeeds, the subsequent getNote returns the merged
record, its createdAt is unchanged, its updatedAt (the fresh stamp)
is strictly greater than its createdAt, and every field absent from
updates is unchanged from before the update. -/
theorem updateNote_frame_amended (notes : Store) (id : String)
    (updates : NoteInput) (now : Nat) (existing : Note)
    (hfind : getNoteFromList notes id = some existing)
    (hid : updates.id = none) (hcr : updates.createdAt = none)
    (hlt : existing.createdAt < now) :
    ∃ s' r, updateNote notes id updates now = Except.ok (s', r) ∧
      getNoteFromList s' id = some r ∧
      r.createdAt = existing.createdAt ∧
      r.createdAt < r.updatedAt ∧
      (updates.title = none → r.title = existing.title) ∧
      (updates.content = none → r.content = existing.content) ∧
      (updates.tags = none → r.tags = existing.tags) ∧
      (updates.folder = none → r.folder = existing.folder) := by
  have hexid : existing.id = id := getNoteFromList_id notes id existing hfind
  have hrid : (mergeUpdate existing updates now).id = id := by
    simp [mergeUpdate, spreadInput, hid, hexid]
  obtain ⟨s', hrep, hf⟩ :=
    replaceById_find notes id existing (mergeUpdate existing updates now) hfind hrid
  refine ⟨s', mergeUpdate existing updates now, ?_, hf, ?_, ?_, ?_, ?_, ?_, ?_⟩
  · unfold updateNote updateNoteLocalStorage
    simp only [hfind, hrep]
  · simp [mergeUpdate, spreadInput, hcr]
  · have hca : (mergeUpdate existing updates now).createdAt = existing.createdAt := by
      simp [mergeUpdate, spreadInput, hcr]
    have hua : (mergeUpdate existing updates now).updatedAt = now := rfl
    rw [hca, hua]
    exact hlt
  · intro h
    simp [mergeUpdate, spreadInput, h]
  · intro h
    simp [mergeUpdate, spreadInput, h]
  · intro h
    simp [mergeUpdate, spreadInput, h]
  · intro h
    simp [mergeUpdate, spreadInput, h]

/-- Witness for C4 as amended: updating sampleNote's title at clock 5
(creation time 1). -/
theorem updateNote_frame_amended_wit :
    ∃ s' r, updateNote [sampleNote] ("a") { title := some ("Beta") } 5 =
        Except.ok (s', r) ∧
      getNoteFromList s' ("a") = some r ∧
      r.createdAt = sampleNote.createdAt ∧
      r.createdAt < r.updatedAt ∧
      (({ title := some ("Beta") } : NoteInput).title = none →
        r.title = sampleNote.title) ∧
      (({ title := some ("Beta") } : NoteInput).content = none →
        r.content = sampleNote.content) ∧
      (({ title := some ("Beta") } : NoteInput).tags = none →
        r.tags = sampleNote.tags) ∧
      (({ title := some ("Beta") } : NoteInput).folder = none →
        r.folder = sampleNote.folder) :=
  updateNote_frame_amended [sampleNote] ("a") { title := some ("Beta") } 5
    sampleNote rfl rfl rfl (by decide)

/-- C9, counterexample: createNote does not own the returned id - the
final object spread lets the caller's id override the generated one,
so two create calls whose inputs carry the same id return notes with
equal ids even though the generator drew different clock values and
different random suffixes. -/
theorem createNote_id_override_cex :
    (createNote { id := some ("dup") } (generateId 1 ("aaaaaaaaa")) 1).id =
      (createNote { id := some ("dup") } (generateId 2 ("bbbbbbbbb")) 2).id :=
  rfl

/-- Every character produced by Nat.digitChar is a digit or letter,
never an underscore. -/
theorem digitChar_ne_underscore (m : Nat) : Nat.digitChar m ≠ '_' := by
  match m with
  | 0 | 1 | 2 | 3 | 4 | 5 | 6 | 7 | 8 | 9 | 10 | 11 | 12 | 13 | 14 | 15 => decide
  | n + 16 =>
    unfold Nat.digitChar
    repeat rw [if_neg (by omega)]
    decide

/-- Every character of the output of Nat.toDigitsCore is either taken
from the accumulator or produced by Nat.digitChar. -/
theorem toDigitsCore_chars (f : Nat) :
    ∀ (n : Nat) (acc : List Char), ∀ c ∈ Nat.toDigitsCore 10 f n acc,
      c ∈ acc ∨ ∃ m, c = Nat.digitChar m := by
  induction f with
  | zero =>
    intro n acc c hc
    simp only [Nat.toDigitsCore] at hc
    exact Or.inl hc
  | succ f ih =>
    intro n acc c hc
    simp only [Nat.toDigitsCore] at hc
    by_cases h : n / 10 = 0
    · rw [if_pos h] at hc
      rcases List.mem_cons.mp hc with h1 | h2
      · exact Or.inr ⟨n % 10, h1⟩
      · exact Or.inl h2
    · rw [if_neg h] at hc
      rcases ih (n / 10) (Nat.digitChar (n % 10) :: acc) c hc with h1 | h2
      · rcases List.mem_cons.mp h1 with h3 | h4
        · exact Or.inr ⟨n % 10, h3⟩
        · exact Or.inl h4
      · exact Or.inr h2

/-- The decimal rendering of a natural number (the Date.now component
of a generated id) never contains an underscore. -/
theorem repr_no_underscore (n : Nat) : '_' ∉ (Nat.repr n).data := by
  intro hmem
  have hx : ('_' : Char) ∈ ([] : List Char) ∨ ∃ m, '_' = Nat.digitChar m := by
    apply toDigitsCore_chars
    simpa [Nat.repr, Nat.toDigits, List.asString] using hmem
  rcases hx with h | ⟨m, hm⟩
  · cases h
  · exact digitChar_ne_underscore m hm.symm

/-- Unique decomposition of a character list at the first underscore:
when neither prefix contains an underscore, equal concatenations force
equal prefixes and equal suffixes. -/
theorem append_underscore_inj (a1 : List Char) :
    ∀ (a2 b1 b2 : List Char), '_' ∉ a1 → '_' ∉ a2 →
      a1 ++ '_' :: b1 = a2 ++ '_' :: b2 → a1 = a2 ∧ b1 = b2 := by
  induction a1 with
  | nil =>
    intro a2 b1 b2 h1 h2 heq
    cases a2 with
    | nil => simpa using heq
    | cons c t =>
      simp only [List.nil_append, List.cons_append, List.cons.injEq] at heq
      exact absurd (heq.1 ▸ List.mem_cons_self c t) h2
  | cons c t ih =>
    intro a2 b1 b2 h1 h2 heq
    cases a2 with
    | nil =>
      simp only [List.nil_append, List.cons_append, List.cons.injEq] at heq
      exact absurd (heq.1 ▸ List.mem_cons_self c t) (heq.1 ▸ h1)
    | cons c2 t2 =>
      simp only [List.cons_append, List.cons.injEq] at heq
      obtain ⟨hc, heq'⟩ := heq
      have hrec := ih t2 b1 b2 (fun hm => h1 (List.mem_cons_of_mem c hm))
        (fun hm => h2 (List.mem_cons_of_mem c2 hm)) heq'
      exact ⟨by rw [hc, hrec.1], hrec.2⟩

/-- Two generated ids with distinct random suffixes are distinct,
whatever the two clock values: the decimal clock component is
underscore-free, so the suffix after the second underscore of the id
is recovered uniquely. -/
theorem generateId_rand_inj (n1 n2 : Nat) (r1 r2 : String)
    (h1 : '_' ∉ r1.data) (h2 : '_' ∉ r2.data)
    (heq : generateId n1 r1 = generateId n2 r2) : r1 = r2 := by
  have hdata := congrArg String.data heq
  simp only [generateId, String.data_append] at hdata
  rw [List.append_assoc, List.append_assoc] at hdata
  have hdata2 := List.append_cancel_left hdata
  have hsplit := append_underscore_inj (Nat.repr n1).data (Nat.repr n2).data
    r1.data r2.data (repr_no_underscore n1) (repr_no_underscore n2)
    (by simpa using hdata2)
  cases r1
  cases r2
  simp only at hsplit
  rw [hsplit.2]

/-- C9 as amended: the ids of notes returned by createNote are
pairwise distinct provided no input supplies its own id and the
Math.random suffixes drawn by the two generateId calls are distinct
(the suffixes are base-36 strings, hence underscore-free); without
those provisos the spread of the input over the generated id, or a
repeated (clock, random) draw, can repeat an id. -/
theorem createNote_ids_pairwise_distinct (i1 i2 : NoteInput)
    (n1 n2 now1 now2 : Nat) (r1 r2 : String)
    (hi1 : i1.id = none) (hi2 : i2.id = none)
    (hr1 : '_' ∉ r1.data) (hr2 : '_' ∉ r2.data) (hne : r1 ≠ r2) :
    (createNote i1 (generateId n1 r1) now1).id ≠
      (createNote i2 (generateId n2 r2) now2).id := by
  intro h
  have e1 : (createNote i1 (generateId n1 r1) now1).id = generateId n1 r1 := by
    simp [createNote, spreadInput, defaultedNote, hi1]
  have e2 : (createNote i2 (generateId n2 r2) now2).id = generateId n2 r2 := by
    simp [createNote, spreadInput, defaultedNote, hi2]
  rw [e1, e2] at h
  exact hne (generateId_rand_inj n1 n2 r1 r2 hr1 hr2 h)

/-- Witness for C9 as amended: two id-less creations in the same
clock millisecond with distinct random suffixes. -/
theorem createNote_ids_pairwise_distinct_wit :
    (createNote {} (generateId 17 ("ab12cd34e")) 17).id ≠
      (createNote {} (generateId 17 ("zz98xy76w")) 17).id :=
  createNote_ids_pairwise_distinct {} {} 17 17 17 17 ("ab12cd34e") ("zz98xy76w")
    rfl rfl (by decide) (by decide) (by decide)

end OfflineNotes
